import Mathlib

/-!
Verification development for the DocVisionAI repository.

The repository consists of two thin HTTP services:
 - a report-Q&A service (src/medical-llm): Flask handler `ask_ai` delegating to
   `medical_llm_service.py` (session store in Firestore, prompt assembly, LLM call);
 - a pneumonia-inference service (src/pneumonia-detection-model):
   Flask handler `predict` (image decode, model inference, Guided Grad-CAM).

This file gives a shallow embedding of the code.  Conventions of the embedding:
 - Firestore is modelled per user/patient pair as an explicit `Store` value holding
   the `conversations` collection (an association list of session id and session
   document) and the patient's `RadiologyReports` collection (a list of reports).
 - Firestore server timestamps and `datetime.utcnow()` are modelled by a logical
   clock `Store.now : Nat`; every observation of the current time uses the clock
   value and advances it by one, so successive timestamps are strictly increasing
   (the abstraction of real time at which any two observations differ).
   The `session_YYYYmmddHHMMSS` document id produced by `strftime` is modelled as
   `"session_" ++ Nat.repr now`.
 - python `len(str)` is `String.length` (both count unicode code points);
   strings compose with `++` exactly as the `+=` accumulation in the source.
 - fallible operations (reads of documents that may be absent, external calls
   that may raise) return `Option`/`Except`; a `none`/`.error` models the Python
   exception propagating to the handler boundary.
 - the external chat-completion endpoint and the external numerical routines
   (cv2/keras) are modelled as function parameters: they are opaque deterministic
   black boxes to this code.
-/

/-- A message stored in a conversation session: role tag, text content and the
`datetime.utcnow().isoformat()` creation timestamp (modelled by the logical
clock). Mirrors the dict saved in `save_message_to_session`. -/
structure Message where
  role : String
  content : String
  timestamp : Nat
deriving DecidableEq

/-- A conversation session document, as created by `start_new_session`:
`sessionStart`, `messages`, `reports_included`, `last_fetch_time`. -/
structure Session where
  sessionStart : Nat
  messages : List Message
  reports_included : Bool
  last_fetch_time : Nat
deriving DecidableEq

/-- A radiology report as returned by `get_patient_radiology_reports`: the
Firestore document fields plus `reportId` (the document id).  Each field read by
`create_flexible_prompt` with `.get(key, 'N/A')` is an `Option String`
(`none` models a missing key); `created_at` is the creation timestamp used by
the delta query. -/
structure Report where
  reportId : Option String
  patientName : Option String
  reportDate : Option String
  created_at : Option Nat
  typeOfStudy : Option String
  clinicalHistory : Option String
  airways : Option String
  leftLung : Option String
  rightLung : Option String
  pleura : Option String
  impression : Option String
  technique : Option String
deriving DecidableEq

/-- The Firestore state visible to one user/patient pair: the `conversations`
collection, the patient's `RadiologyReports` collection, and the logical server
clock. -/
structure Store where
  sessions : List (String × Session)
  reports : List Report
  now : Nat
deriving DecidableEq

/-- Document read in a keyed collection (`collection.document(id).get()`). -/
def getSession : List (String × Session) → String → Option Session
  | [], _ => none
  | p :: rest, id => if p.1 = id then some p.2 else getSession rest id

/-- Document write in a keyed collection (`document(id).set(data)` /
`document(id).update(...)` after building the full new document): replaces the
document when the id is present, inserts it otherwise. -/
def setSession : List (String × Session) → String → Session → List (String × Session)
  | [], id, d => [(id, d)]
  | p :: rest, id, d => if p.1 = id then (id, d) :: rest else p :: setSession rest id d

/-- The `order_by('sessionStart', DESCENDING).limit(1)` query: the document with
the greatest `sessionStart` (first such document on ties). -/
def latestSession : List (String × Session) → Option (String × Session)
  | [] => none
  | p :: rest =>
    match latestSession rest with
    | none => some p
    | some q => if q.2.sessionStart > p.2.sessionStart then some q else some p

/-- `FIRESTORE_LIMIT = 1 * 1024 * 1024` from `medical_llm_service.py`. -/
def FIRESTORE_LIMIT : Nat := 1 * 1024 * 1024

/-- The document id `f"session_{datetime.utcnow().strftime('%Y%m%d%H%M%S')}"`,
with the formatted wall-clock time abstracted to the logical clock value. -/
def sessionIdOf (t : Nat) : String := "session_" ++ Nat.repr t

/-- `start_new_session`: create a fresh session document with an empty message
list, `reports_included = False` and server-side `sessionStart` /
`last_fetch_time` timestamps.  Returns the new session id and the new store. -/
def start_new_session (s : Store) : String × Store :=
  let session_id := sessionIdOf s.now
  let doc : Session :=
    { sessionStart := s.now, messages := [], reports_included := false, last_fetch_time := s.now }
  (session_id, { s with sessions := setSession s.sessions session_id doc, now := s.now + 1 })

/-- `firestore.ArrayUnion([m])` on the `messages` array: appends `m` unless an
equal element is already present. -/
def arrayUnion (l : List Message) (m : Message) : List Message :=
  if m ∈ l then l else l ++ [m]

/-- `save_message_to_session`: read the session document, compute the cumulative
content size (`sum(len(m['content']) for m in messages) + len(content)`), start
a new session if it exceeds `FIRESTORE_LIMIT`, then append the message (with a
fresh timestamp) to the chosen session via `ArrayUnion`.  `none` models the
`AttributeError` raised when the session document does not exist. -/
def save_message_to_session (s : Store) (session_id role content : String) : Option Store :=
  match getSession s.sessions session_id with
  | none => none
  | some session_data =>
    let messages := session_data.messages
    let current_size := (messages.map (fun m => m.content.length)).sum + content.length
    let target :=
      if current_size > FIRESTORE_LIMIT then start_new_session s
      else (session_id, s)
    match getSession target.2.sessions target.1 with
    | none => none
    | some d =>
      let msg : Message := { role := role, content := content, timestamp := target.2.now }
      let d2 : Session := { d with messages := arrayUnion d.messages msg }
      some { target.2 with
        sessions := setSession target.2.sessions target.1 d2,
        now := target.2.now + 1 }

/-- `get_conversation_history`: the `messages` array of the session document,
or `[]` when the document does not exist. -/
def get_conversation_history (s : Store) (session_id : String) : List Message :=
  match getSession s.sessions session_id with
  | some data => data.messages
  | none => []

/-- `get_current_session_id`: the latest session by `sessionStart`, or a newly
created session when none exists.  Returns the session id together with the
(possibly updated) store. -/
def get_current_session_id (s : Store) : String × Store :=
  match latestSession s.sessions with
  | some p => (p.1, s)
  | none => start_new_session s

/-- `get_patient_radiology_reports`: all reports of the patient, or (when a
`last_fetch_time` is supplied) only those with `created_at > last_fetch_time`
(documents lacking `created_at` never match the range filter). -/
def get_patient_radiology_reports (reports : List Report) (last_fetch_time : Option Nat) :
    List Report :=
  match last_fetch_time with
  | none => reports
  | some t =>
    reports.filter fun r =>
      match r.created_at with
      | some c => decide (c > t)
      | none => false

/-- The per-report text block appended to the prompt by the loop body of
`create_flexible_prompt`; every field is read with `.get(key, 'N/A')`, so a
missing field renders as the literal "N/A". -/
def reportBlock (report : Report) : String :=
  "Report ID: " ++ report.reportId.getD "N/A" ++ "\n" ++
  "Patient Name: " ++ report.patientName.getD "N/A" ++ "\n" ++
  "- Report Date: " ++ report.reportDate.getD "N/A" ++
    " (Created At: " ++ ((report.created_at.map Nat.repr).getD "N/A") ++ ")\n" ++
  "  - Type of Study: " ++ report.typeOfStudy.getD "N/A" ++ "\n" ++
  "  - Clinical History: " ++ report.clinicalHistory.getD "N/A" ++ "\n" ++
  "  - Findings:\n" ++
  "    - Airways: " ++ report.airways.getD "N/A" ++ "\n" ++
  "    - Left Lung: " ++ report.leftLung.getD "N/A" ++ "\n" ++
  "    - Right Lung: " ++ report.rightLung.getD "N/A" ++ "\n" ++
  "    - Pleura: " ++ report.pleura.getD "N/A" ++ "\n" ++
  "  - Impression: " ++ report.impression.getD "N/A" ++ "\n" ++
  "  - Technique: " ++ report.technique.getD "N/A" ++ "\n" ++
  "\n"

/-- The `for report in reports:` accumulation of `create_flexible_prompt`,
written as structural recursion: the concatenation of the blocks in order. -/
def reportsText : List Report → String
  | [] => ""
  | r :: rest => reportBlock r ++ reportsText rest

/-- `create_flexible_prompt`: fixed header, patient id line, one block per
report, then the radiologist's question. -/
def create_flexible_prompt (patient_id question : String) (reports : List Report) : String :=
  "Based on the following patient history and radiology reports, please answer the question below:\n\n"
  ++ ("Patient ID: " ++ patient_id ++ "\n\n")
  ++ reportsText reports
  ++ ("Radiologist's Question: " ++ question ++ "\n")

/-- A chat message as sent to the completion API (role and content). -/
structure ChatMessage where
  role : String
  content : String
deriving DecidableEq

/-- The stored message as it enters the message list passed to the completion
API (the transport drops the bookkeeping timestamp). -/
def toChatMessage (m : Message) : ChatMessage :=
  { role := m.role, content := m.content }

/-- The single `client.chat.completions.create(...)` call made by
`ask_ai_about_patient_reports`, with all its keyword arguments. -/
structure ApiCall where
  model : String
  messages : List ChatMessage
  temperature : ℚ
  top_p : ℚ
  max_tokens : Nat
  stream : Bool
deriving DecidableEq

/-- Result of one `ask_ai_about_patient_reports` request: the returned response
text, the completion-API call that was made (`none` when the flow
short-circuited before the model call), and the final store. -/
structure AskResult where
  response : String
  apiCall : Option ApiCall
  store : Store
deriving DecidableEq

/-- The tail of `ask_ai_about_patient_reports` shared by all prompt branches:
append the prompt as a user turn to the retrieved history, perform the
completion call (`temperature=0.4, top_p=0.7, max_tokens=1500, stream=False`),
then persist the prompt and the reply with `save_message_to_session`, both
against the originally resolved `session_id`.  The hosted model is the opaque
deterministic parameter `llm`. -/
def completeAndSave (llm : List ChatMessage → String) (s : Store)
    (session_id : String) (conversation_history : List Message) (prompt : String) :
    Option AskResult :=
  let messages := conversation_history.map toChatMessage ++ [{ role := "user", content := prompt }]
  let call : ApiCall :=
    { model := "writer/palmyra-med-70b-32k", messages := messages,
      temperature := 0.4, top_p := 0.7, max_tokens := 1500, stream := false }
  let response := llm messages
  match save_message_to_session s session_id "user" prompt with
  | none => none
  | some s3 =>
    match save_message_to_session s3 session_id "assistant" response with
    | none => none
    | some s4 => some { response := response, apiCall := some call, store := s4 }

/-- `ask_ai_about_patient_reports`: resolve the current session, read its
`reports_included` flag and `last_fetch_time`; when reports were never included
fetch all reports (short-circuiting with the fixed no-reports string when there
are none) and build the full prompt, marking the flag and refreshing the fetch
time; otherwise fetch only newer reports and either rebuild the prompt from all
reports (refreshing the fetch time) or fall back to the raw question; finally
run the completion call and persist both turns.  `user_id` and `patient_id`
select the Firestore paths in the source; the embedding's `Store` is already
the state at those paths. -/
def ask_ai_about_patient_reports (llm : List ChatMessage → String) (s0 : Store)
    (user_id patient_id question : String) : Option AskResult :=
  let sp := get_current_session_id s0
  let session_id := sp.1
  let s1 := sp.2
  let conversation_history := get_conversation_history s1 session_id
  match getSession s1.sessions session_id with
  | none => none
  | some session_data =>
    let reports_included := session_data.reports_included
    let last_fetch_time := session_data.last_fetch_time
    if reports_included = false then
      let reports := get_patient_radiology_reports s1.reports none
      if reports = [] then
        some { response := "No reports found for this patient.", apiCall := none, store := s1 }
      else
        let prompt := create_flexible_prompt patient_id question reports
        let d2 : Session :=
          { session_data with reports_included := true, last_fetch_time := s1.now }
        let s2 : Store :=
          { s1 with sessions := setSession s1.sessions session_id d2, now := s1.now + 1 }
        completeAndSave llm s2 session_id conversation_history prompt
    else
      let new_reports := get_patient_radiology_reports s1.reports (some last_fetch_time)
      if new_reports ≠ [] then
        let all_reports := get_patient_radiology_reports s1.reports none
        let prompt := create_flexible_prompt patient_id question all_reports
        let d2 : Session := { session_data with last_fetch_time := s1.now }
        let s2 : Store :=
          { s1 with sessions := setSession s1.sessions session_id d2, now := s1.now + 1 }
        completeAndSave llm s2 session_id conversation_history prompt
      else
        completeAndSave llm s1 session_id conversation_history question

/-- Raw bytes of an uploaded image (`request.files['image'].read()`). -/
def ImageBytes : Type := List Nat

/-- The preprocessed image array (decoded, resized, rescaled to rationals in
place of floats, batch dimension left implicit). -/
def ImgArray : Type := List ℚ

/-- The loaded keras classifier, as an opaque deterministic scoring function:
`model.predict(img_array)[0][0]` is `predictScore img_array` (the model's single
scalar output, floats modelled by rationals). -/
structure InferenceModel where
  predictScore : ImgArray → ℚ

/-- The process-wide mutable state of the inference service: the lazily loaded
model cached in the `model` global. -/
structure ServerState where
  cached : Option InferenceModel

/-- The external collaborators of the `predict` handler, opaque to this code:
`preprocess_image` (cv2 decode/resize/rescale, failing on undecodable bytes),
`load_model(MODEL_PATH)` (failing when the file cannot be loaded), and
`apply_guided_gradcam` plus JPEG/base64 encoding, producing the base64 heatmap
string (failing when the numerical routines raise). -/
structure PredictDeps where
  preprocess : ImageBytes → Except String ImgArray
  loadFromDisk : Except String InferenceModel
  runGradcam : ImageBytes → InferenceModel → Except String String

/-- `load_model_once`: return the cached model, loading it on first use; a load
failure leaves the cache empty. -/
def load_model_once (loadFromDisk : Except String InferenceModel) (st : ServerState) :
    Except String (InferenceModel × ServerState) :=
  match st.cached with
  | some m => Except.ok (m, st)
  | none =>
    match loadFromDisk with
    | Except.ok m => Except.ok (m, { cached := some m })
    | Except.error e => Except.error e

/-- Body of an HTTP response of either service.  `text` is the streamed
plain-text Q&A reply; `jsonError` is `jsonify({"error": msg})`; `predictJson`
is the inference success body (the redundant human-readable `result` string,
a formatting of the same diagnosis and confidence, is not modelled);
`frameworkErrorPage` is the framework-generated generic 500 error page sent
by werkzeug when an exception escapes the handler — its contents are fixed by
the framework and contain no application-echoed exception text. -/
inductive HttpBody where
  | text (body : String)
  | jsonError (error : String)
  | predictJson (diagnosis : String) (confidence : ℚ) (heatmap : String)
  | frameworkErrorPage
deriving DecidableEq

/-- An HTTP response: status code and body. -/
structure HttpResponse where
  status : Nat
  body : HttpBody
deriving DecidableEq

/-- The multipart form of a `/predict` request: the `image` file field, when
present. -/
structure PredictRequestFiles where
  image : Option ImageBytes

/-- The `/predict` Flask handler of `pneumonia_model_api.py`: reject a request
without an `image` file with 400; otherwise preprocess, lazily load the model,
score, threshold at 0.5 into diagnosis and confidence, render the Guided
Grad-CAM heatmap, and answer 200; any exception along the way is caught by the
handler's `except` and answered as 500 with the fixed body
`{'error': 'Internal Server Error'}` (the model cache keeps whatever was loaded
before the exception). -/
def predict (deps : PredictDeps) (st : ServerState) (req : PredictRequestFiles) :
    HttpResponse × ServerState :=
  match req.image with
  | none => ({ status := 400, body := HttpBody.jsonError "No image provided" }, st)
  | some img =>
    match deps.preprocess img with
    | Except.error _ => ({ status := 500, body := HttpBody.jsonError "Internal Server Error" }, st)
    | Except.ok img_array =>
      match load_model_once deps.loadFromDisk st with
      | Except.error _ =>
        ({ status := 500, body := HttpBody.jsonError "Internal Server Error" }, st)
      | Except.ok (m, st2) =>
        let prediction := m.predictScore img_array
        let dc : String × ℚ :=
          if prediction > 0.5 then ("Pneumonia detected", prediction)
          else ("Normal", 1 - prediction)
        match deps.runGradcam img m with
        | Except.error _ =>
          ({ status := 500, body := HttpBody.jsonError "Internal Server Error" }, st2)
        | Except.ok heatmap =>
          ({ status := 200, body := HttpBody.predictJson dc.1 dc.2 heatmap }, st2)

/-- The JSON body of an `/api/ask_ai` request (`request.json`), with each field
absent when the key is missing. -/
structure AskAiRequestBody where
  user_id : Option String
  patient_id : Option String
  question : Option String

/-- Python truthiness of `not value` for an optional string: true for a missing
key (None) and for an empty string. -/
def pyFalsy : Option String → Bool
  | none => true
  | some s => s.isEmpty

/-- The value returned by the `/api/ask_ai` Flask handler: either a response
produced inside the try/except of the handler (`early`), or the
`Response(stream_with_context(generate()), ...)` object (`streamed`), which
carries the service computation: `generate()` is a generator, so the service
call inside it runs only when the WSGI server iterates the response body —
after the handler, and with it the `try`/`except`, has already returned. -/
inductive AskAiHandlerReturn where
  | early (resp : HttpResponse)
  | streamed (generate : Except String String)

/-- The `/api/ask_ai` Flask handler of `scripts/medical_llm_api.py`.  `body`
is the result of reading `request.json` and its fields inside the `try`
block: an exception there (malformed JSON, or a JSON `null` body making
`data.get` raise) is caught by the `except` clause and answered as 500 with
the exception text.  A request missing (or with an empty string, per
Python truthiness) any of `user_id`, `patient_id`, `question` is answered 400
with the fixed missing-field message.  Otherwise the handler returns the
streaming response: the service call `svc` (standing for
`ask_ai_about_patient_reports` with its external collaborators) is captured
inside the generator and is not executed within the try/except of the
handler. -/
def ask_ai (svc : String → String → String → Except String String)
    (body : Except String AskAiRequestBody) : AskAiHandlerReturn :=
  match body with
  | Except.error e =>
    AskAiHandlerReturn.early { status := 500, body := HttpBody.jsonError e }
  | Except.ok data =>
    if pyFalsy data.user_id || pyFalsy data.patient_id || pyFalsy data.question then
      AskAiHandlerReturn.early
        { status := 400,
          body := HttpBody.jsonError "Missing user_id, patient_id, or question in request" }
    else
      AskAiHandlerReturn.streamed
        (svc (data.user_id.getD "") (data.patient_id.getD "") (data.question.getD ""))

/-- The response the client of `/api/ask_ai` observes: an `early` return is
sent as-is; for a `streamed` return the WSGI server iterates the generator
after the handler has exited — if the service call succeeds, its reply is the
200 plain-text body, and if it raises, the exception escapes the already
exited try/except of the handler and the framework answers with its generic
500 error page, which does not echo the exception text. -/
def ask_ai_observed (svc : String → String → String → Except String String)
    (body : Except String AskAiRequestBody) : HttpResponse :=
  match ask_ai svc body with
  | AskAiHandlerReturn.early resp => resp
  | AskAiHandlerReturn.streamed (Except.ok response) =>
    { status := 200, body := HttpBody.text response }
  | AskAiHandlerReturn.streamed (Except.error _) =>
    { status := 500, body := HttpBody.frameworkErrorPage }

/-- The cumulative UTF-8 byte size of the stored message contents plus a new
content string.  This is the "size in bytes" reading of the session-size
threshold; the source code instead measures `len(...)`, i.e. the character
count (`String.length`). -/
def cumulativeContentBytes (msgs : List Message) (content : String) : Nat :=
  (msgs.map (fun m => m.content.utf8ByteSize)).sum + content.utf8ByteSize

/-- The two persistence calls at the end of `ask_ai_about_patient_reports`:
save the prompt as the user turn, then save the model reply as the assistant
turn, both against the originally resolved `session_id`. -/
def saveBothTurns (s : Store) (session_id prompt response : String) : Option Store :=
  match save_message_to_session s session_id "user" prompt with
  | none => none
  | some s3 => save_message_to_session s3 session_id "assistant" response

theorem getSession_setSession_self (l : List (String × Session)) (id : String) (d : Session) :
    getSession (setSession l id d) id = some d := by
  induction l with
  | nil => simp [getSession, setSession]
  | cons p rest ih =>
    by_cases h : p.1 = id
    · simp [getSession, setSession, h]
    · simp [getSession, setSession, h, ih]

theorem getSession_setSession_ne (l : List (String × Session)) (id id' : String) (d : Session)
    (h : id' ≠ id) : getSession (setSession l id d) id' = getSession l id' :=  by
  induction l with
  | nil => simp [getSession, setSession, Ne.symm h]
  | cons p rest ih =>
    by_cases hp : p.1 = id
    · have hp' : id ≠ id' := fun hc => h hc.symm
      simp [getSession, setSession, hp, hp', h, ih]
    · by_cases hq : p.1 = id'
      · simp [getSession, setSession, hp, hq, h]
      · simp [getSession, setSession, hp, hq, h, ih]

theorem setSession_eq_append (l : List (String × Session)) (id : String) (d : Session)
    (h : ∀ p ∈ l, p.1 ≠ id) : setSession l id d = l ++ [(id, d)] := by
  induction l with
  | nil => simp [setSession]
  | cons p rest ih =>
    have hp : p.1 ≠ id := h p (by simp)
    have hrest : ∀ q ∈ rest, q.1 ≠ id := fun q hq => h q (by simp [hq])
    simp [setSession, hp, ih hrest]

theorem latestSession_append_max (l : List (String × Session)) (x : String × Session)
    (h : ∀ p ∈ l, p.2.sessionStart < x.2.sessionStart) :
    latestSession (l ++ [x]) = some x := by
  induction l with
  | nil => simp [latestSession]
  | cons p rest ih =>
    have hp : p.2.sessionStart < x.2.sessionStart := h p (by simp)
    have hrest : ∀ q ∈ rest, q.2.sessionStart < x.2.sessionStart := fun q hq => h q (by simp [hq])
    simp only [List.cons_append, latestSession, List.append_eq]
    rw [ih hrest]
    simp [hp]

theorem arrayUnion_nil (m : Message) : arrayUnion [] m = [m] := by
  simp [arrayUnion]

theorem setSession_idem (l : List (String × Session)) (id : String) (a b : Session) :
    setSession (setSession l id a) id b = setSession l id b := by
  induction l with
  | nil => simp [setSession]
  | cons p rest ih => by_cases hp : p.1 = id <;> simp [setSession, hp, ih]

theorem save_rollover_eq (s : Store) (sid role content : String) (data : Session)
    (hget : getSession s.sessions sid = some data)
    (hbig : (data.messages.map (fun m => m.content.length)).sum + content.length > FIRESTORE_LIMIT) :
    save_message_to_session s sid role content = some
      { sessions := setSession s.sessions (sessionIdOf s.now)
          { sessionStart := s.now,
            messages := [{ role := role, content := content, timestamp := s.now + 1 }],
            reports_included := false, last_fetch_time := s.now },
        reports := s.reports, now := s.now + 2 } := by
  simp only [save_message_to_session, hget, start_new_session]
  rw [if_pos hbig]
  simp only [getSession_setSession_self, arrayUnion_nil, setSession_idem]

theorem save_keep_eq (s : Store) (sid role content : String) (data : Session)
    (hget : getSession s.sessions sid = some data)
    (hsmall : ¬ ((data.messages.map (fun m => m.content.length)).sum + content.length
        > FIRESTORE_LIMIT)) :
    save_message_to_session s sid role content = some
      ⟨setSession s.sessions sid
          ⟨data.sessionStart,
           arrayUnion data.messages ⟨role, content, s.now⟩,
           data.reports_included, data.last_fetch_time⟩,
       s.reports, s.now + 1⟩ := by
  simp only [save_message_to_session, hget]
  rw [if_neg hsmall]
  simp only [hget]

theorem save_some (s : Store) (sid role content : String)
    (h : (getSession s.sessions sid).isSome) :
    ∃ s', save_message_to_session s sid role content = some s' ∧
      (getSession s'.sessions sid).isSome ∧ s.now < s'.now ∧ s'.now ≤ s.now + 2 := by
  obtain ⟨data, hget⟩ := Option.isSome_iff_exists.mp h
  by_cases hbig : (data.messages.map (fun m => m.content.length)).sum + content.length
      > FIRESTORE_LIMIT
  · refine ⟨_, save_rollover_eq s sid role content data hget hbig, ?_, by simp, by simp⟩
    by_cases hsid : sid = sessionIdOf s.now
    · subst hsid; simp [getSession_setSession_self]
    · simp [getSession_setSession_ne _ _ _ _ hsid, hget]
  · refine ⟨_, save_keep_eq s sid role content data hget hbig, ?_, by simp, by simp⟩
    simp [getSession_setSession_self]

theorem save_preserves (s : Store) (sid role content tgt : String) (dt : Session)
    (htgt : getSession s.sessions tgt = some dt)
    (hsid : (getSession s.sessions sid).isSome)
    (hne : tgt ≠ sessionIdOf s.now) :
    ∃ s', save_message_to_session s sid role content = some s' ∧
      (getSession s'.sessions sid).isSome ∧ s.now < s'.now ∧ s'.now ≤ s.now + 2 ∧
      ∃ dt', getSession s'.sessions tgt = some dt' ∧
        dt'.sessionStart = dt.sessionStart ∧
        dt'.reports_included = dt.reports_included ∧
        dt'.last_fetch_time = dt.last_fetch_time ∧
        (tgt ≠ sid → dt' = dt) := by
  obtain ⟨data, hget⟩ := Option.isSome_iff_exists.mp hsid
  by_cases hbig : (data.messages.map (fun m => m.content.length)).sum + content.length
      > FIRESTORE_LIMIT
  · refine ⟨_, save_rollover_eq s sid role content data hget hbig, ?_, by simp, by simp, ?_⟩
    · by_cases hs : sid = sessionIdOf s.now
      · subst hs; simp [getSession_setSession_self]
      · simp [getSession_setSession_ne _ _ _ _ hs, hget]
    · exact ⟨dt, by simp [getSession_setSession_ne _ _ _ _ hne, htgt], rfl, rfl, rfl,
        fun _ => rfl⟩
  · refine ⟨_, save_keep_eq s sid role content data hget hbig, ?_, by simp, by simp, ?_⟩
    · simp [getSession_setSession_self]
    · by_cases ht : tgt = sid
      · subst ht
        have hdt : dt = data := by rw [htgt] at hget; exact Option.some.inj hget
        subst hdt
        refine ⟨⟨dt.sessionStart, arrayUnion dt.messages ⟨role, content, s.now⟩,
            dt.reports_included, dt.last_fetch_time⟩,
          by simp [getSession_setSession_self], rfl, rfl, rfl, fun hc => absurd rfl hc⟩
      · exact ⟨dt, by simp [getSession_setSession_ne _ _ _ _ ht, htgt], rfl, rfl, rfl,
          fun _ => rfl⟩

theorem completeAndSave_some (llm : List ChatMessage → String) (s : Store)
    (sid : String) (hist : List Message) (prompt : String)
    (h : (getSession s.sessions sid).isSome) :
    ∃ st, completeAndSave llm s sid hist prompt = some
      { response := llm (hist.map toChatMessage ++ [{ role := "user", content := prompt }]),
        apiCall := some
          { model := "writer/palmyra-med-70b-32k",
            messages := hist.map toChatMessage ++ [{ role := "user", content := prompt }],
            temperature := 0.4, top_p := 0.7, max_tokens := 1500, stream := false },
        store := st } := by
  obtain ⟨s3, hs3, hsome3, _, _⟩ := save_some s sid "user" prompt h
  obtain ⟨s4, hs4, _, _, _⟩ := save_some s3 sid "assistant"
    (llm (hist.map toChatMessage ++ [{ role := "user", content := prompt }])) hsome3
  exact ⟨s4, by simp only [completeAndSave, hs3, hs4]⟩

theorem completeAndSave_preserves (llm : List ChatMessage → String) (s : Store)
    (sid : String) (hist : List Message) (prompt : String) (tgt : String) (dt : Session)
    (htgt : getSession s.sessions tgt = some dt)
    (hsid : (getSession s.sessions sid).isSome)
    (hne : ∀ i, i < 3 → tgt ≠ sessionIdOf (s.now + i)) :
    ∃ st, completeAndSave llm s sid hist prompt = some
      { response := llm (hist.map toChatMessage ++ [{ role := "user", content := prompt }]),
        apiCall := some
          { model := "writer/palmyra-med-70b-32k",
            messages := hist.map toChatMessage ++ [{ role := "user", content := prompt }],
            temperature := 0.4, top_p := 0.7, max_tokens := 1500, stream := false },
        store := st } ∧
      ∃ dt', getSession st.sessions tgt = some dt' ∧
        dt'.sessionStart = dt.sessionStart ∧
        dt'.reports_included = dt.reports_included ∧
        dt'.last_fetch_time = dt.last_fetch_time := by
  obtain ⟨s3, hs3, hsome3, hlt3, hle3, dt3, htgt3, ha3, hb3, hc3, _⟩ :=
    save_preserves s sid "user" prompt tgt dt htgt hsid (hne 0 (by omega))
  have hne3 : tgt ≠ sessionIdOf s3.now := by
    have : s3.now = s.now + (s3.now - s.now) := by omega
    rw [this]
    exact hne (s3.now - s.now) (by omega)
  obtain ⟨s4, hs4, _, _, _, dt4, htgt4, ha4, hb4, hc4, _⟩ :=
    save_preserves s3 sid "assistant"
      (llm (hist.map toChatMessage ++ [{ role := "user", content := prompt }])) tgt dt3
      htgt3 hsome3 hne3
  refine ⟨s4, by simp only [completeAndSave, hs3, hs4], dt4, htgt4, ?_, ?_, ?_⟩
  · rw [ha4, ha3]
  · rw [hb4, hb3]
  · rw [hc4, hc3]

theorem reportsText_mem_split (l : List Report) (r : Report) (h : r ∈ l) :
    ∃ u v, reportsText l = u ++ (reportBlock r ++ v) := by
  induction l with
  | nil => cases h
  | cons a rest ih =>
    rcases List.mem_cons.mp h with rfl | hmem
    · exact ⟨"", reportsText rest, by simp [reportsText]⟩
    · obtain ⟨u, v, hu⟩ := ih hmem
      exact ⟨reportBlock a ++ u, v, by simp [reportsText, hu, String.append_assoc]⟩

theorem create_flexible_prompt_contains_block (patient_id question : String)
    (l : List Report) (r : Report) (h : r ∈ l) :
    ∃ u v, create_flexible_prompt patient_id question l = u ++ (reportBlock r ++ v) := by
  obtain ⟨u, v, hu⟩ := reportsText_mem_split l r h
  refine ⟨("Based on the following patient history and radiology reports, please answer the question below:\n\n"
      ++ ("Patient ID: " ++ patient_id ++ "\n\n")) ++ u,
    v ++ ("Radiologist's Question: " ++ question ++ "\n"), ?_⟩
  simp [create_flexible_prompt, hu, String.append_assoc]

theorem create_flexible_prompt_question_tail (patient_id question : String) (l : List Report) :
    ∃ u, create_flexible_prompt patient_id question l =
      u ++ ("Radiologist's Question: " ++ question ++ "\n") := by
  exact ⟨"Based on the following patient history and radiology reports, please answer the question below:\n\n"
      ++ ("Patient ID: " ++ patient_id ++ "\n\n") ++ reportsText l,
    by simp [create_flexible_prompt, String.append_assoc]⟩

/-- C1: for a user/patient pair whose current session has
`reports_included = false`, when the patient has zero radiology reports,
`ask_ai_about_patient_reports` returns exactly the string
"No reports found for this patient.", makes no chat-completion API call
(`apiCall = none`), and leaves the store unchanged. -/
theorem C1_no_reports_short_circuit (llm : List ChatMessage → String) (s : Store)
    (user_id patient_id question sid : String) (sess : Session)
    (hlatest : latestSession s.sessions = some (sid, sess))
    (hget : getSession s.sessions sid = some sess)
    (hflag : sess.reports_included = false)
    (hr : s.reports = []) :
    ask_ai_about_patient_reports llm s user_id patient_id question =
      some { response := "No reports found for this patient.", apiCall := none, store := s } := by
  simp only [ask_ai_about_patient_reports, get_current_session_id, hlatest, hget,
    get_patient_radiology_reports, hflag, hr]
  simp

/-- Witness for C1 at a concrete store: one existing session with
`reports_included = false` and an empty report collection. -/
theorem C1_witness :
    latestSession [("s0", ⟨0, [], false, 0⟩)] = some ("s0", ⟨0, [], false, 0⟩) ∧
    getSession [("s0", (⟨0, [], false, 0⟩ : Session))] "s0" = some ⟨0, [], false, 0⟩ ∧
    ask_ai_about_patient_reports (fun _ => "ok") ⟨[("s0", ⟨0, [], false, 0⟩)], [], 1⟩
        "u1" "p1" "q1" =
      some { response := "No reports found for this patient.", apiCall := none,
             store := ⟨[("s0", ⟨0, [], false, 0⟩)], [], 1⟩ } :=
  ⟨by decide, by decide,
   C1_no_reports_short_circuit (fun _ => "ok") ⟨[("s0", ⟨0, [], false, 0⟩)], [], 1⟩
     "u1" "p1" "q1" "s0" ⟨0, [], false, 0⟩ (by decide) (by decide) rfl rfl⟩

/-- C2: with `reports_included = false` and a non-empty report collection,
exactly one prompt is built (the single user turn appended to the history in
the one API call), that prompt contains every report's block — identifier,
patient name, date, study type, clinical history, per-region findings,
impression and technique, each missing field rendered "N/A" inside
`reportBlock` — followed by the question, and afterwards the session's
`reports_included` flag is true and its `last_fetch_time` is refreshed to the
request's server time (strictly later than before). -/
theorem C2_first_inclusion_builds_prompt (llm : List ChatMessage → String) (s : Store)
    (user_id patient_id question sid : String) (sess : Session)
    (hlatest : latestSession s.sessions = some (sid, sess))
    (hget : getSession s.sessions sid = some sess)
    (hflag : sess.reports_included = false)
    (hr : s.reports ≠ [])
    (hfresh : ∀ i, i < 4 → sid ≠ sessionIdOf (s.now + i))
    (hlf : sess.last_fetch_time < s.now) :
    ∃ r, ask_ai_about_patient_reports llm s user_id patient_id question = some r ∧
      r.apiCall = some
        { model := "writer/palmyra-med-70b-32k",
          messages := sess.messages.map toChatMessage ++
            [{ role := "user",
               content := create_flexible_prompt patient_id question s.reports }],
          temperature := 0.4, top_p := 0.7, max_tokens := 1500, stream := false } ∧
      (∀ rep ∈ s.reports, ∃ u v,
        create_flexible_prompt patient_id question s.reports = u ++ (reportBlock rep ++ v)) ∧
      (∃ u, create_flexible_prompt patient_id question s.reports =
        u ++ ("Radiologist's Question: " ++ question ++ "\n")) ∧
      ∃ d, getSession r.store.sessions sid = some d ∧
        d.reports_included = true ∧ d.last_fetch_time = s.now ∧
        sess.last_fetch_time < d.last_fetch_time := by
  have hred : ask_ai_about_patient_reports llm s user_id patient_id question =
      completeAndSave llm
        ⟨setSession s.sessions sid ⟨sess.sessionStart, sess.messages, true, s.now⟩,
         s.reports, s.now + 1⟩
        sid sess.messages (create_flexible_prompt patient_id question s.reports) := by
    simp only [ask_ai_about_patient_reports, get_current_session_id, hlatest,
      get_conversation_history, hget, get_patient_radiology_reports, hflag, hr]
    simp
  rw [hred]
  have hne2 : ∀ i, i < 3 →
      sid ≠ sessionIdOf ((⟨setSession s.sessions sid
          ⟨sess.sessionStart, sess.messages, true, s.now⟩,
        s.reports, s.now + 1⟩ : Store).now + i) := by
    intro i hi
    have harith : (⟨setSession s.sessions sid
          ⟨sess.sessionStart, sess.messages, true, s.now⟩,
        s.reports, s.now + 1⟩ : Store).now + i = s.now + (i + 1) := by
      simp; omega
    rw [harith]
    exact hfresh (i + 1) (by omega)
  obtain ⟨st, heq, d', hd', ha, hb, hc⟩ :=
    completeAndSave_preserves llm
      ⟨setSession s.sessions sid ⟨sess.sessionStart, sess.messages, true, s.now⟩,
       s.reports, s.now + 1⟩
      sid sess.messages (create_flexible_prompt patient_id question s.reports)
      sid ⟨sess.sessionStart, sess.messages, true, s.now⟩
      (getSession_setSession_self _ _ _)
      (by simp [getSession_setSession_self])
      hne2
  refine ⟨_, heq, rfl, ?_, ?_, d', hd', ?_, ?_, ?_⟩
  · intro rep hrep
    exact create_flexible_prompt_contains_block patient_id question s.reports rep hrep
  · exact create_flexible_prompt_question_tail patient_id question s.reports
  · exact hb
  · exact hc
  · rw [hc]; exact hlf

/-- Witness for C2 at a concrete store: one session with
`reports_included = false` and a single report. -/
theorem C2_witness :
    ([(⟨some "r1", some "John Doe", some "2024-01-01", some 0, none, none, none, none,
        none, none, none, none⟩ : Report)] : List Report) ≠ [] ∧
    ∃ r, ask_ai_about_patient_reports (fun _ => "ok")
        ⟨[("s0", ⟨0, [], false, 0⟩)],
         [⟨some "r1", some "John Doe", some "2024-01-01", some 0, none, none, none, none,
           none, none, none, none⟩], 1⟩ "u1" "p1" "q1" = some r ∧
      r.apiCall = some
        { model := "writer/palmyra-med-70b-32k",
          messages := ([] : List Message).map toChatMessage ++
            [{ role := "user",
               content := create_flexible_prompt "p1" "q1"
                 [⟨some "r1", some "John Doe", some "2024-01-01", some 0, none, none, none,
                   none, none, none, none, none⟩] }],
          temperature := 0.4, top_p := 0.7, max_tokens := 1500, stream := false } ∧
      (∀ rep ∈ [(⟨some "r1", some "John Doe", some "2024-01-01", some 0, none, none, none,
          none, none, none, none, none⟩ : Report)], ∃ u v,
        create_flexible_prompt "p1" "q1"
          [⟨some "r1", some "John Doe", some "2024-01-01", some 0, none, none, none, none,
            none, none, none, none⟩] = u ++ (reportBlock rep ++ v)) ∧
      (∃ u, create_flexible_prompt "p1" "q1"
          [⟨some "r1", some "John Doe", some "2024-01-01", some 0, none, none, none, none,
            none, none, none, none⟩] =
        u ++ ("Radiologist's Question: " ++ "q1" ++ "\n")) ∧
      ∃ d, getSession r.store.sessions "s0" = some d ∧
        d.reports_included = true ∧ d.last_fetch_time = 1 ∧
        (0 : Nat) < d.last_fetch_time :=
  ⟨by decide,
   C2_first_inclusion_builds_prompt (fun _ => "ok")
     ⟨[("s0", ⟨0, [], false, 0⟩)],
      [⟨some "r1", some "John Doe", some "2024-01-01", some 0, none, none, none, none,
        none, none, none, none⟩], 1⟩
     "u1" "p1" "q1" "s0" ⟨0, [], false, 0⟩
     (by decide) (by decide) rfl (by decide) (by decide) (by decide)⟩

/-- C3: with `reports_included = true`, when at least one report has
`created_at` after the session's `last_fetch_time` the prompt sent to the model
is rebuilt from all of the patient's reports plus the question and
`last_fetch_time` is refreshed; when no such report exists the prompt sent is
exactly the raw question string and `last_fetch_time` is unchanged. -/
theorem C3_delta_fetch (llm : List ChatMessage → String) (s : Store)
    (user_id patient_id question sid : String) (sess : Session)
    (hlatest : latestSession s.sessions = some (sid, sess))
    (hget : getSession s.sessions sid = some sess)
    (hflag : sess.reports_included = true)
    (hfresh : ∀ i, i < 4 → sid ≠ sessionIdOf (s.now + i))
    (hlf : sess.last_fetch_time < s.now) :
    ∃ r, ask_ai_about_patient_reports llm s user_id patient_id question = some r ∧
      if get_patient_radiology_reports s.reports (some sess.last_fetch_time) ≠ [] then
        r.apiCall = some
          { model := "writer/palmyra-med-70b-32k",
            messages := sess.messages.map toChatMessage ++
              [{ role := "user",
                 content := create_flexible_prompt patient_id question s.reports }],
            temperature := 0.4, top_p := 0.7, max_tokens := 1500, stream := false } ∧
        ∃ d, getSession r.store.sessions sid = some d ∧
          d.last_fetch_time = s.now ∧ sess.last_fetch_time < d.last_fetch_time
      else
        r.apiCall = some
          { model := "writer/palmyra-med-70b-32k",
            messages := sess.messages.map toChatMessage ++
              [{ role := "user", content := question }],
            temperature := 0.4, top_p := 0.7, max_tokens := 1500, stream := false } ∧
        ∃ d, getSession r.store.sessions sid = some d ∧
          d.last_fetch_time = sess.last_fetch_time := by
  by_cases hnew : get_patient_radiology_reports s.reports (some sess.last_fetch_time) ≠ []
  · have hred : ask_ai_about_patient_reports llm s user_id patient_id question =
        completeAndSave llm
          ⟨setSession s.sessions sid
             ⟨sess.sessionStart, sess.messages, sess.reports_included, s.now⟩,
           s.reports, s.now + 1⟩
          sid sess.messages (create_flexible_prompt patient_id question s.reports) := by
      simp only [ask_ai_about_patient_reports, get_current_session_id, hlatest,
        get_conversation_history, hget, hflag]
      rw [if_neg (by simp)]
      rw [if_pos hnew]
      simp only [get_patient_radiology_reports]
    rw [hred]
    have hne2 : ∀ i, i < 3 →
        sid ≠ sessionIdOf ((⟨setSession s.sessions sid
            ⟨sess.sessionStart, sess.messages, sess.reports_included, s.now⟩,
          s.reports, s.now + 1⟩ : Store).now + i) := by
      intro i hi
      have harith : (⟨setSession s.sessions sid
            ⟨sess.sessionStart, sess.messages, sess.reports_included, s.now⟩,
          s.reports, s.now + 1⟩ : Store).now + i = s.now + (i + 1) := by
        simp; omega
      rw [harith]
      exact hfresh (i + 1) (by omega)
    obtain ⟨st, heq, d', hd', ha, hb, hc⟩ :=
      completeAndSave_preserves llm
        ⟨setSession s.sessions sid
           ⟨sess.sessionStart, sess.messages, sess.reports_included, s.now⟩,
         s.reports, s.now + 1⟩
        sid sess.messages (create_flexible_prompt patient_id question s.reports)
        sid ⟨sess.sessionStart, sess.messages, sess.reports_included, s.now⟩
        (getSession_setSession_self _ _ _)
        (by simp [getSession_setSession_self])
        hne2
    refine ⟨_, heq, ?_⟩
    rw [if_pos hnew]
    exact ⟨rfl, d', hd', hc, by rw [hc]; exact hlf⟩
  · have hred : ask_ai_about_patient_reports llm s user_id patient_id question =
        completeAndSave llm s sid sess.messages question := by
      simp only [ask_ai_about_patient_reports, get_current_session_id, hlatest,
        get_conversation_history, hget, hflag]
      rw [if_neg (by simp)]
      rw [if_neg hnew]
    rw [hred]
    have hne2 : ∀ i, i < 3 → sid ≠ sessionIdOf (s.now + i) :=
      fun i hi => hfresh i (by omega)
    obtain ⟨st, heq, d', hd', ha, hb, hc⟩ :=
      completeAndSave_preserves llm s sid sess.messages question sid sess hget
        (by simp [hget]) hne2
    refine ⟨_, heq, ?_⟩
    rw [if_neg hnew]
    exact ⟨rfl, d', hd', hc⟩

/-- Witness for C3 at a concrete store: session with `reports_included = true`
and one report newer than the session's `last_fetch_time`. -/
theorem C3_witness :
    ∃ r, ask_ai_about_patient_reports (fun _ => "ok")
        ⟨[("s0", ⟨0, [], true, 0⟩)],
         [⟨some "r1", none, none, some 5, none, none, none, none, none, none, none, none⟩],
         7⟩ "u1" "p1" "q1" = some r ∧
      if get_patient_radiology_reports
          [⟨some "r1", none, none, some 5, none, none, none, none, none, none, none, none⟩]
          (some 0) ≠ [] then
        r.apiCall = some
          { model := "writer/palmyra-med-70b-32k",
            messages := ([] : List Message).map toChatMessage ++
              [{ role := "user",
                 content := create_flexible_prompt "p1" "q1"
                   [⟨some "r1", none, none, some 5, none, none, none, none, none, none,
                     none, none⟩] }],
            temperature := 0.4, top_p := 0.7, max_tokens := 1500, stream := false } ∧
        ∃ d, getSession r.store.sessions "s0" = some d ∧
          d.last_fetch_time = 7 ∧ (0 : Nat) < d.last_fetch_time
      else
        r.apiCall = some
          { model := "writer/palmyra-med-70b-32k",
            messages := ([] : List Message).map toChatMessage ++
              [{ role := "user", content := "q1" }],
            temperature := 0.4, top_p := 0.7, max_tokens := 1500, stream := false } ∧
        ∃ d, getSession r.store.sessions "s0" = some d ∧
          d.last_fetch_time = 0 :=
  C3_delta_fetch (fun _ => "ok")
    ⟨[("s0", ⟨0, [], true, 0⟩)],
     [⟨some "r1", none, none, some 5, none, none, none, none, none, none, none, none⟩], 7⟩
    "u1" "p1" "q1" "s0" ⟨0, [], true, 0⟩
    (by decide) (by decide) rfl (by decide) (by decide)

theorem arrayUnion_eq_append (l : List Message) (m : Message) (h : m ∉ l) :
    arrayUnion l m = l ++ [m] := by
  simp [arrayUnion, h]

theorem mk_replicate_length (n : Nat) (c : Char) :
    (String.mk (List.replicate n c)).length = n := by
  show (List.replicate n c).length = n
  exact List.length_replicate ..

theorem utf8Len_replicate (n : Nat) (c : Char) :
    String.utf8Len (List.replicate n c) = n * c.utf8Size := by
  induction n with
  | zero => simp
  | succ k ih =>
    simp [List.replicate, ih]
    ring

theorem mk_replicate_utf8ByteSize (n : Nat) (c : Char) :
    (String.mk (List.replicate n c)).utf8ByteSize = n * c.utf8Size := by
  rw [show (String.mk (List.replicate n c)).utf8ByteSize
      = String.utf8Len (List.replicate n c) by simp [String.utf8ByteSize]]
  exact utf8Len_replicate n c

theorem C4_bytes_vs_chars (n : Nat) (h1 : n * 2 > FIRESTORE_LIMIT)
    (h2 : ¬ n > FIRESTORE_LIMIT) :
    cumulativeContentBytes [] (String.mk (List.replicate n '¢')) > FIRESTORE_LIMIT ∧
    save_message_to_session ⟨[("s0", ⟨0, [], false, 0⟩)], [], 1⟩ "s0" "user"
        (String.mk (List.replicate n '¢')) =
      some ⟨[("s0", ⟨0, [⟨"user", String.mk (List.replicate n '¢'), 1⟩], false, 0⟩)],
            [], 2⟩ := by
  constructor
  · have e : cumulativeContentBytes [] (String.mk (List.replicate n '¢')) = n * 2 := by
      simp only [cumulativeContentBytes, List.map_nil, List.sum_nil, Nat.zero_add,
        mk_replicate_utf8ByteSize]
      rw [show (Char.utf8Size '¢') = 2 by decide]
    rw [e]
    exact h1
  · have hsmall : ¬ (((⟨0, [], false, 0⟩ : Session).messages.map
        (fun m => m.content.length)).sum
        + (String.mk (List.replicate n '¢')).length > FIRESTORE_LIMIT) := by
      simp only [List.map_nil, List.sum_nil, Nat.zero_add, mk_replicate_length]
      exact h2
    rw [save_keep_eq ⟨[("s0", ⟨0, [], false, 0⟩)], [], 1⟩ "s0" "user"
      (String.mk (List.replicate n '¢')) ⟨0, [], false, 0⟩ rfl hsmall]
    simp [setSession, arrayUnion]

/-- C4 counterexample: the claim reads the session-size threshold as a count of
bytes.  For a content of 524289 two-byte characters the cumulative UTF-8 byte
size (1048578) exceeds 1,048,576, so the claim requires a rollover; yet
`save_message_to_session` appends the message to the existing session "s0" and
creates no new session, because the code compares `len(content)` — the
character count 524289, which is under the limit. -/
theorem C4_counterexample :
    cumulativeContentBytes [] (String.mk (List.replicate 524289 '¢')) > FIRESTORE_LIMIT ∧
    save_message_to_session ⟨[("s0", ⟨0, [], false, 0⟩)], [], 1⟩ "s0" "user"
        (String.mk (List.replicate 524289 '¢')) =
      some ⟨[("s0", ⟨0, [⟨"user", String.mk (List.replicate 524289 '¢'), 1⟩], false, 0⟩)],
            [], 2⟩ :=
  C4_bytes_vs_chars 524289 (by norm_num [FIRESTORE_LIMIT]) (by norm_num [FIRESTORE_LIMIT])

/-- C4 amended: the rollover threshold is the cumulative character count
(Python `len`), not the byte count.  If the stored contents' character count
plus the new content's character count exceeds 1,048,576 then a new session
document is created and the message is saved there (the old session is left
untouched); otherwise the message is appended to the existing session. -/
theorem C4_amended_char_threshold (s : Store) (sid role content : String) (data : Session)
    (hget : getSession s.sessions sid = some data)
    (hfresh : sid ≠ sessionIdOf s.now)
    (hts : ∀ m ∈ data.messages, m.timestamp < s.now) :
    if (data.messages.map (fun m => m.content.length)).sum + content.length
        > FIRESTORE_LIMIT then
      ∃ s', save_message_to_session s sid role content = some s' ∧
        getSession s'.sessions (sessionIdOf s.now) =
          some ⟨s.now, [⟨role, content, s.now + 1⟩], false, s.now⟩ ∧
        getSession s'.sessions sid = some data
    else
      ∃ s', save_message_to_session s sid role content = some s' ∧
        getSession s'.sessions sid =
          some ⟨data.sessionStart, data.messages ++ [⟨role, content, s.now⟩],
                data.reports_included, data.last_fetch_time⟩ := by
  split_ifs with hbig
  · refine ⟨_, save_rollover_eq s sid role content data hget hbig, ?_, ?_⟩
    · exact getSession_setSession_self _ _ _
    · rw [getSession_setSession_ne _ _ _ _ hfresh]
      exact hget
  · have hnotin :
        ({ role := role, content := content, timestamp := s.now } : Message)
          ∉ data.messages := by
      intro hmem
      have hlt := hts _ hmem
      simp at hlt
    refine ⟨_, save_keep_eq s sid role content data hget hbig, ?_⟩
    rw [getSession_setSession_self, arrayUnion_eq_append _ _ hnotin]

/-- Witness for the amended C4 at a concrete store (small message, no
rollover). -/
theorem C4_amended_witness :
    "s0" ≠ sessionIdOf 5 ∧
    (if (([] : List Message).map (fun m => m.content.length)).sum + ("hi" : String).length
        > FIRESTORE_LIMIT then
      ∃ s', save_message_to_session ⟨[("s0", ⟨0, [], false, 0⟩)], [], 5⟩ "s0" "user" "hi"
          = some s' ∧
        getSession s'.sessions (sessionIdOf 5) =
          some ⟨5, [⟨"user", "hi", 6⟩], false, 5⟩ ∧
        getSession s'.sessions "s0" = some ⟨0, [], false, 0⟩
    else
      ∃ s', save_message_to_session ⟨[("s0", ⟨0, [], false, 0⟩)], [], 5⟩ "s0" "user" "hi"
          = some s' ∧
        getSession s'.sessions "s0" =
          some ⟨0, [] ++ [⟨"user", "hi", 5⟩], false, 0⟩) :=
  ⟨by decide,
   C4_amended_char_threshold ⟨[("s0", ⟨0, [], false, 0⟩)], [], 5⟩ "s0" "user" "hi"
     ⟨0, [], false, 0⟩ (by decide) (by decide) (by decide)⟩

theorem completeAndSave_apiCall (llm : List ChatMessage → String) (s : Store)
    (sid : String) (hist : List Message) (prompt : String) (r : AskResult)
    (h : completeAndSave llm s sid hist prompt = some r) :
    r.apiCall = some
      { model := "writer/palmyra-med-70b-32k",
        messages := hist.map toChatMessage ++ [{ role := "user", content := prompt }],
        temperature := 0.4, top_p := 0.7, max_tokens := 1500, stream := false } := by
  unfold completeAndSave at h
  rcases h1 : save_message_to_session s sid "user" prompt with _ | s3
  · rw [h1] at h; cases h
  · rw [h1] at h
    dsimp only at h
    rcases h2 : save_message_to_session s3 sid "assistant"
        (llm (hist.map toChatMessage ++ [{ role := "user", content := prompt }])) with _ | s4
    · rw [h2] at h; cases h
    · rw [h2] at h
      dsimp only at h
      cases h
      rfl

/-- C5 counterexample: a request that reaches the model call (session with
`reports_included = true`, no new reports, so the prompt is the raw question).
The message list of the completion call is exactly the single user turn — it
contains no system-persona message, contradicting the claim that a fixed
system persona message is sent.  (The system-persona message exists only in
the standalone `nvidia_api_client.py` demo script, which the service does not
invoke.) -/
theorem C5_counterexample :
    (ask_ai_about_patient_reports (fun _ => "ok") ⟨[("s0", ⟨0, [], true, 5⟩)], [], 6⟩
        "u1" "p1" "q1").map
      (fun r => r.apiCall.map
        (fun c => (c.messages, c.messages.any (fun m => m.role == "system"))))
    = some (some ([{ role := "user", content := "q1" }], false)) := by
  decide

theorem no_system_in_call (hist : List Message) (prompt : String)
    (hh : ∀ m ∈ hist, m.role ≠ "system") :
    ∀ cm ∈ hist.map toChatMessage ++ [({ role := "user", content := prompt } : ChatMessage)],
      cm.role ≠ "system" := by
  intro cm hcm
  rcases List.mem_append.mp hcm with hl | hr
  · obtain ⟨m, hm, rfl⟩ := List.mem_map.mp hl
    exact hh m hm
  · rw [List.mem_singleton.mp hr]
    show ("user" : String) ≠ "system"
    decide

/-- C5 amended: every completion call made by `ask_ai_about_patient_reports`
is non-streaming with the fixed model, temperature 0.4, top-p 0.7 and at most
1500 output tokens, and its message list is exactly the retrieved conversation
history followed by the assembled prompt as a single user turn — no system
persona message is added (so the call has a system turn only if the stored
history already had one). -/
theorem C5_amended_call_params (llm : List ChatMessage → String) (s : Store)
    (user_id patient_id question : String) (r : AskResult) (call : ApiCall)
    (h : ask_ai_about_patient_reports llm s user_id patient_id question = some r)
    (hc : r.apiCall = some call) :
    call.model = "writer/palmyra-med-70b-32k" ∧
    call.temperature = 0.4 ∧ call.top_p = 0.7 ∧ call.max_tokens = 1500 ∧
    call.stream = false ∧
    (∃ prompt, call.messages =
      (get_conversation_history (get_current_session_id s).2
        (get_current_session_id s).1).map toChatMessage ++
      [{ role := "user", content := prompt }]) ∧
    ((∀ m ∈ get_conversation_history (get_current_session_id s).2
        (get_current_session_id s).1, m.role ≠ "system") →
      ∀ cm ∈ call.messages, cm.role ≠ "system") := by
  have key : ∃ prompt, call =
      { model := "writer/palmyra-med-70b-32k",
        messages := (get_conversation_history (get_current_session_id s).2
            (get_current_session_id s).1).map toChatMessage ++
          [{ role := "user", content := prompt }],
        temperature := 0.4, top_p := 0.7, max_tokens := 1500, stream := false } := by
    unfold ask_ai_about_patient_reports at h
    dsimp only at h
    split at h
    · cases h
    · split at h
      · split at h
        · cases h
          simp at hc
        · have ha := completeAndSave_apiCall _ _ _ _ _ _ h
          rw [hc] at ha
          exact ⟨_, Option.some.inj ha⟩
      · split at h
        · have ha := completeAndSave_apiCall _ _ _ _ _ _ h
          rw [hc] at ha
          exact ⟨_, Option.some.inj ha⟩
        · have ha := completeAndSave_apiCall _ _ _ _ _ _ h
          rw [hc] at ha
          exact ⟨_, Option.some.inj ha⟩
  obtain ⟨prompt, rfl⟩ := key
  exact ⟨rfl, rfl, rfl, rfl, rfl, ⟨prompt, rfl⟩, no_system_in_call _ prompt⟩

/-- Witness for the amended C5 at a concrete request that reaches the model
call (statement written with the call's projections reduced). -/
theorem C5_amended_witness :
    ask_ai_about_patient_reports (fun _ => "ok") ⟨[("s0", ⟨0, [], true, 5⟩)], [], 6⟩
        "u1" "p1" "q1" =
      some { response := "ok",
             apiCall := some
               { model := "writer/palmyra-med-70b-32k",
                 messages := [{ role := "user", content := "q1" }],
                 temperature := 0.4, top_p := 0.7, max_tokens := 1500, stream := false },
             store := ⟨[("s0", ⟨0, [⟨"user", "q1", 6⟩, ⟨"assistant", "ok", 7⟩], true, 5⟩)],
                       [], 8⟩ } ∧
    (("writer/palmyra-med-70b-32k" : String) = "writer/palmyra-med-70b-32k" ∧
      (0.4 : ℚ) = 0.4 ∧ (0.7 : ℚ) = 0.7 ∧ (1500 : Nat) = 1500 ∧ false = false ∧
      (∃ prompt, [({ role := "user", content := "q1" } : ChatMessage)] =
        (get_conversation_history
            (get_current_session_id ⟨[("s0", ⟨0, [], true, 5⟩)], [], 6⟩).2
            (get_current_session_id ⟨[("s0", ⟨0, [], true, 5⟩)], [], 6⟩).1).map
          toChatMessage ++ [{ role := "user", content := prompt }]) ∧
      ((∀ m ∈ get_conversation_history
            (get_current_session_id ⟨[("s0", ⟨0, [], true, 5⟩)], [], 6⟩).2
            (get_current_session_id ⟨[("s0", ⟨0, [], true, 5⟩)], [], 6⟩).1,
          m.role ≠ "system") →
        ∀ cm ∈ [({ role := "user", content := "q1" } : ChatMessage)],
          cm.role ≠ "system")) :=
  ⟨rfl,
   C5_amended_call_params (fun _ => "ok") ⟨[("s0", ⟨0, [], true, 5⟩)], [], 6⟩
     "u1" "p1" "q1"
     { response := "ok",
       apiCall := some
         { model := "writer/palmyra-med-70b-32k",
           messages := [{ role := "user", content := "q1" }],
           temperature := 0.4, top_p := 0.7, max_tokens := 1500, stream := false },
       store := ⟨[("s0", ⟨0, [⟨"user", "q1", 6⟩, ⟨"assistant", "ok", 7⟩], true, 5⟩)], [], 8⟩ }
     { model := "writer/palmyra-med-70b-32k",
       messages := [{ role := "user", content := "q1" }],
       temperature := 0.4, top_p := 0.7, max_tokens := 1500, stream := false }
     rfl rfl⟩

/-- C6: for a decoded image whose classifier output is the scalar `s` in
[0,1]: if `s > 0.5` the predict endpoint reports "Pneumonia detected" with
confidence `s`, and if `s ≤ 0.5` it reports "Normal" with confidence `1 - s`;
the two possible confidences computed from the same `s` sum to 1. -/
theorem C6_threshold_diagnosis (deps : PredictDeps) (st : ServerState)
    (req : PredictRequestFiles) (img : ImageBytes) (arr : ImgArray)
    (m : InferenceModel) (st2 : ServerState) (heat : String) (s : ℚ)
    (himg : req.image = some img)
    (hpre : deps.preprocess img = Except.ok arr)
    (hload : load_model_once deps.loadFromDisk st = Except.ok (m, st2))
    (hscore : m.predictScore arr = s)
    (hgc : deps.runGradcam img m = Except.ok heat)
    (hrange : 0 ≤ s ∧ s ≤ 1) :
    (s > 0.5 → (predict deps st req).1 =
      { status := 200, body := HttpBody.predictJson "Pneumonia detected" s heat }) ∧
    (s ≤ 0.5 → (predict deps st req).1 =
      { status := 200, body := HttpBody.predictJson "Normal" (1 - s) heat }) ∧
    s + (1 - s) = 1 := by
  refine ⟨?_, ?_, by ring⟩
  · intro hgt
    simp only [predict, himg, hpre, hload, hgc, hscore]
    rw [if_pos hgt]
  · intro hle
    simp only [predict, himg, hpre, hload, hgc, hscore]
    rw [if_neg (not_lt.mpr hle)]

/-- Witness for C6 at a concrete model scoring 0.7 on a concrete image. -/
theorem C6_witness :
    ((0.7 : ℚ) > 0.5 →
      (predict ⟨fun _ => Except.ok [], Except.ok ⟨fun _ => 0.7⟩, fun _ _ => Except.ok "hm"⟩
        ⟨none⟩ ⟨some [1]⟩).1 =
      { status := 200, body := HttpBody.predictJson "Pneumonia detected" 0.7 "hm" }) ∧
    ((0.7 : ℚ) ≤ 0.5 →
      (predict ⟨fun _ => Except.ok [], Except.ok ⟨fun _ => 0.7⟩, fun _ _ => Except.ok "hm"⟩
        ⟨none⟩ ⟨some [1]⟩).1 =
      { status := 200, body := HttpBody.predictJson "Normal" (1 - 0.7) "hm" }) ∧
    (0.7 : ℚ) + (1 - 0.7) = 1 :=
  C6_threshold_diagnosis
    ⟨fun _ => Except.ok [], Except.ok ⟨fun _ => 0.7⟩, fun _ _ => Except.ok "hm"⟩
    ⟨none⟩ ⟨some [1]⟩ [1] [] ⟨fun _ => 0.7⟩ ⟨some ⟨fun _ => 0.7⟩⟩ "hm" 0.7
    rfl rfl rfl rfl rfl (by norm_num)

/-- C7 counterexample: with a well-formed body and a service call that raises
"boom", the Q&A handler returns the streaming response before the service
runs, so the exception is raised during response iteration, escapes the
already exited try/except, and the observed response is the framework generic
500 page — not the claimed 500 body echoing the exception text. -/
theorem C7_counterexample :
    ask_ai (fun _ _ _ => Except.error "boom")
        (Except.ok ⟨some "u", some "p", some "q"⟩) =
      AskAiHandlerReturn.streamed (Except.error "boom") ∧
    ask_ai_observed (fun _ _ _ => Except.error "boom")
        (Except.ok ⟨some "u", some "p", some "q"⟩) =
      { status := 500, body := HttpBody.frameworkErrorPage } ∧
    HttpBody.frameworkErrorPage ≠ HttpBody.jsonError "boom" := by
  refine ⟨rfl, rfl, ?_⟩
  decide

/-- C7 amended: a predict request without the `image` file field answers 400
with `{"error": "No image provided"}`; an ask_ai request missing (or empty,
per Python truthiness) any of `user_id`/`patient_id`/`question` answers 400
with the fixed missing-field message; an exception raised while reading the
request body inside the Q&A handler answers 500 with the exception text
echoed; but a service exception is raised only during response iteration,
after the handler and its try/except have returned, so it surfaces as the
framework generic 500 page that echoes no exception text; any exception in
the inference handler (preprocessing, model load, or Grad-CAM/encoding)
answers 500 with the fixed body "Internal Server Error". -/
theorem C7_error_handling_amended :
    (∀ (deps : PredictDeps) (st : ServerState) (req : PredictRequestFiles),
      req.image = none →
      predict deps st req =
        ({ status := 400, body := HttpBody.jsonError "No image provided" }, st)) ∧
    (∀ (svc : String → String → String → Except String String) (e : String),
      ask_ai svc (Except.error e) =
        AskAiHandlerReturn.early { status := 500, body := HttpBody.jsonError e }) ∧
    (∀ (svc : String → String → String → Except String String)
        (data : AskAiRequestBody),
      (pyFalsy data.user_id || pyFalsy data.patient_id || pyFalsy data.question) = true →
      ask_ai svc (Except.ok data) =
        AskAiHandlerReturn.early
          { status := 400,
            body := HttpBody.jsonError
              "Missing user_id, patient_id, or question in request" }) ∧
    (∀ (svc : String → String → String → Except String String)
        (data : AskAiRequestBody),
      (pyFalsy data.user_id || pyFalsy data.patient_id || pyFalsy data.question) = false →
      ask_ai svc (Except.ok data) =
        AskAiHandlerReturn.streamed
          (svc (data.user_id.getD "") (data.patient_id.getD "") (data.question.getD ""))) ∧
    (∀ (svc : String → String → String → Except String String)
        (data : AskAiRequestBody) (r : String),
      (pyFalsy data.user_id || pyFalsy data.patient_id || pyFalsy data.question) = false →
      svc (data.user_id.getD "") (data.patient_id.getD "") (data.question.getD "") =
        Except.ok r →
      ask_ai_observed svc (Except.ok data) =
        { status := 200, body := HttpBody.text r }) ∧
    (∀ (svc : String → String → String → Except String String)
        (data : AskAiRequestBody) (e : String),
      (pyFalsy data.user_id || pyFalsy data.patient_id || pyFalsy data.question) = false →
      svc (data.user_id.getD "") (data.patient_id.getD "") (data.question.getD "") =
        Except.error e →
      ask_ai_observed svc (Except.ok data) =
        { status := 500, body := HttpBody.frameworkErrorPage } ∧
      ∀ msg : String, HttpBody.frameworkErrorPage ≠ HttpBody.jsonError msg) ∧
    (∀ (deps : PredictDeps) (st : ServerState) (req : PredictRequestFiles)
        (img : ImageBytes) (e : String),
      req.image = some img → deps.preprocess img = Except.error e →
      predict deps st req =
        ({ status := 500, body := HttpBody.jsonError "Internal Server Error" }, st)) ∧
    (∀ (deps : PredictDeps) (st : ServerState) (req : PredictRequestFiles)
        (img : ImageBytes) (arr : ImgArray) (e : String),
      req.image = some img → deps.preprocess img = Except.ok arr →
      load_model_once deps.loadFromDisk st = Except.error e →
      predict deps st req =
        ({ status := 500, body := HttpBody.jsonError "Internal Server Error" }, st)) ∧
    (∀ (deps : PredictDeps) (st : ServerState) (req : PredictRequestFiles)
        (img : ImageBytes) (arr : ImgArray) (m : InferenceModel) (st2 : ServerState)
        (e : String),
      req.image = some img → deps.preprocess img = Except.ok arr →
      load_model_once deps.loadFromDisk st = Except.ok (m, st2) →
      deps.runGradcam img m = Except.error e →
      predict deps st req =
        ({ status := 500, body := HttpBody.jsonError "Internal Server Error" }, st2)) := by
  refine ⟨?_, ?_, ?_, ?_, ?_, ?_, ?_, ?_, ?_⟩
  · intro deps st req h
    simp [predict, h]
  · intro svc e
    simp [ask_ai]
  · intro svc data h
    simp [ask_ai, h]
  · intro svc data h
    simp [ask_ai, h]
  · intro svc data r h hsvc
    simp [ask_ai_observed, ask_ai, h, hsvc]
  · intro svc data e h hsvc
    constructor
    · simp [ask_ai_observed, ask_ai, h, hsvc]
    · intro msg
      simp
  · intro deps st req img e h hp
    simp [predict, h, hp]
  · intro deps st req img arr e h hp hl
    simp [predict, h, hp, hl]
  · intro deps st req img arr m st2 e h hp hl hg
    simp [predict, h, hp, hl, hg]

/-- Witness for the amended C7: every error path exercised at a concrete
input. -/
theorem C7_amended_witness :
    predict ⟨fun _ => Except.ok [], Except.ok ⟨fun _ => 0⟩, fun _ _ => Except.ok "hm"⟩
        ⟨none⟩ ⟨none⟩ =
      ({ status := 400, body := HttpBody.jsonError "No image provided" }, ⟨none⟩) ∧
    ask_ai (fun _ _ _ => Except.ok "fine") (Except.error "bad json body") =
      AskAiHandlerReturn.early
        { status := 500, body := HttpBody.jsonError "bad json body" } ∧
    ask_ai (fun _ _ _ => Except.ok "fine") (Except.ok ⟨some "u", some "p", none⟩) =
      AskAiHandlerReturn.early
        { status := 400,
          body := HttpBody.jsonError
            "Missing user_id, patient_id, or question in request" } ∧
    ask_ai (fun _ _ _ => Except.error "db down") (Except.ok ⟨some "u", some "p", some "q"⟩) =
      AskAiHandlerReturn.streamed (Except.error "db down") ∧
    ask_ai_observed (fun _ _ _ => Except.ok "fine")
        (Except.ok ⟨some "u", some "p", some "q"⟩) =
      { status := 200, body := HttpBody.text "fine" } ∧
    (ask_ai_observed (fun _ _ _ => Except.error "db down")
        (Except.ok ⟨some "u", some "p", some "q"⟩) =
      { status := 500, body := HttpBody.frameworkErrorPage } ∧
      ∀ msg : String, HttpBody.frameworkErrorPage ≠ HttpBody.jsonError msg) ∧
    predict ⟨fun _ => Except.error "bad image", Except.ok ⟨fun _ => 0⟩,
        fun _ _ => Except.ok "hm"⟩ ⟨none⟩ ⟨some [1]⟩ =
      ({ status := 500, body := HttpBody.jsonError "Internal Server Error" }, ⟨none⟩) ∧
    predict ⟨fun _ => Except.ok [], Except.error "no model file", fun _ _ => Except.ok "hm"⟩
        ⟨none⟩ ⟨some [1]⟩ =
      ({ status := 500, body := HttpBody.jsonError "Internal Server Error" }, ⟨none⟩) ∧
    predict ⟨fun _ => Except.ok [], Except.ok ⟨fun _ => 0⟩, fun _ _ => Except.error "cam"⟩
        ⟨none⟩ ⟨some [1]⟩ =
      ({ status := 500, body := HttpBody.jsonError "Internal Server Error" },
       ⟨some ⟨fun _ => 0⟩⟩) :=
  ⟨C7_error_handling_amended.1 _ _ _ rfl,
   C7_error_handling_amended.2.1 _ "bad json body",
   C7_error_handling_amended.2.2.1 _ _ rfl,
   C7_error_handling_amended.2.2.2.1 _ _ rfl,
   C7_error_handling_amended.2.2.2.2.1 _ _ "fine" rfl rfl,
   C7_error_handling_amended.2.2.2.2.2.1 _ _ "db down" rfl rfl,
   C7_error_handling_amended.2.2.2.2.2.2.1 _ _ _ [1] "bad image" rfl rfl,
   C7_error_handling_amended.2.2.2.2.2.2.2.1 _ _ _ [1] [] "no model file" rfl rfl rfl,
   C7_error_handling_amended.2.2.2.2.2.2.2.2 _ _ _ [1] [] ⟨fun _ => 0⟩
     ⟨some ⟨fun _ => 0⟩⟩ "cam" rfl rfl rfl rfl⟩

/-- C8: for a fixed loaded model (the deterministic `deps` and the process
cache) and a fixed input image, two consecutive calls of the predict endpoint
produce identical responses — in particular identical diagnosis strings and
identical confidence values. -/
theorem C8_predict_deterministic (deps : PredictDeps) (st : ServerState)
    (req : PredictRequestFiles) :
    (predict deps ((predict deps st req).2) req).1 = (predict deps st req).1 := by
  rcases hi : req.image with _ | img
  · simp [predict, hi]
  · rcases hp : deps.preprocess img with e | arr
    · simp [predict, hi, hp]
    · rcases hc : st.cached with _ | m
      · rcases hl : deps.loadFromDisk with e | m0
        · simp [predict, hi, hp, load_model_once, hc, hl]
        · rcases hg : deps.runGradcam img m0 with e | heat <;>
            simp [predict, hi, hp, load_model_once, hc, hl, hg]
      · rcases hg : deps.runGradcam img m with e | heat <;>
          simp [predict, hi, hp, load_model_once, hc, hg]

/-- C10: every session created by `start_new_session` (the same code path used
by size rollover) starts with `reports_included = false` and an empty message
list; consequently the first `ask_ai_about_patient_reports` call handled in
the new session re-fetches the patient's full report collection and re-embeds
all of it in the prompt (the single user turn of the API call), regardless of
what any previous session had already included. -/
theorem C10_new_session_defaults (llm : List ChatMessage → String) (s : Store)
    (user_id patient_id question : String)
    (hstart : ∀ p ∈ s.sessions, p.2.sessionStart < s.now)
    (hfresh0 : ∀ p ∈ s.sessions, p.1 ≠ sessionIdOf s.now)
    (hr : s.reports ≠ []) :
    getSession (start_new_session s).2.sessions (start_new_session s).1 =
      some ⟨s.now, [], false, s.now⟩ ∧
    ∃ r, ask_ai_about_patient_reports llm (start_new_session s).2
        user_id patient_id question = some r ∧
      r.apiCall = some
        { model := "writer/palmyra-med-70b-32k",
          messages :=
            [{ role := "user",
               content := create_flexible_prompt patient_id question s.reports }],
          temperature := 0.4, top_p := 0.7, max_tokens := 1500, stream := false } := by
  simp only [start_new_session]
  constructor
  · exact getSession_setSession_self _ _ _
  · have hlat : latestSession
        (setSession s.sessions (sessionIdOf s.now) ⟨s.now, [], false, s.now⟩) =
        some (sessionIdOf s.now, ⟨s.now, [], false, s.now⟩) := by
      rw [setSession_eq_append _ _ _ hfresh0]
      exact latestSession_append_max _ _ (fun p hp => hstart p hp)
    have hget0 : getSession
        (setSession s.sessions (sessionIdOf s.now) ⟨s.now, [], false, s.now⟩)
        (sessionIdOf s.now) = some ⟨s.now, [], false, s.now⟩ :=
      getSession_setSession_self _ _ _
    have hred : ask_ai_about_patient_reports llm
        ⟨setSession s.sessions (sessionIdOf s.now) ⟨s.now, [], false, s.now⟩,
         s.reports, s.now + 1⟩ user_id patient_id question =
        completeAndSave llm
          ⟨setSession
             (setSession s.sessions (sessionIdOf s.now) ⟨s.now, [], false, s.now⟩)
             (sessionIdOf s.now) ⟨s.now, [], true, s.now + 1⟩,
           s.reports, s.now + 2⟩
          (sessionIdOf s.now) []
          (create_flexible_prompt patient_id question s.reports) := by
      simp only [ask_ai_about_patient_reports, get_current_session_id, hlat,
        get_conversation_history, hget0, get_patient_radiology_reports]
      simp [hr]
    rw [hred]
    obtain ⟨st, heq⟩ := completeAndSave_some llm
      ⟨setSession
         (setSession s.sessions (sessionIdOf s.now) ⟨s.now, [], false, s.now⟩)
         (sessionIdOf s.now) ⟨s.now, [], true, s.now + 1⟩,
       s.reports, s.now + 2⟩
      (sessionIdOf s.now) []
      (create_flexible_prompt patient_id question s.reports)
      (by simp [getSession_setSession_self])
    exact ⟨_, heq, rfl⟩

/-- Witness for C10 at a concrete store: a previous session that already
included the single report, and a fresh session started after it. -/
theorem C10_witness :
    getSession
      (start_new_session ⟨[("s0", ⟨0, [], true, 1⟩)],
        [⟨some "r1", none, none, some 0, none, none, none, none, none, none, none, none⟩],
        3⟩).2.sessions
      (start_new_session ⟨[("s0", ⟨0, [], true, 1⟩)],
        [⟨some "r1", none, none, some 0, none, none, none, none, none, none, none, none⟩],
        3⟩).1 = some ⟨3, [], false, 3⟩ ∧
    ∃ r, ask_ai_about_patient_reports (fun _ => "ok")
        (start_new_session ⟨[("s0", ⟨0, [], true, 1⟩)],
          [⟨some "r1", none, none, some 0, none, none, none, none, none, none, none, none⟩],
          3⟩).2 "u1" "p1" "q1" = some r ∧
      r.apiCall = some
        { model := "writer/palmyra-med-70b-32k",
          messages :=
            [{ role := "user",
               content := create_flexible_prompt "p1" "q1"
                 [⟨some "r1", none, none, some 0, none, none, none, none, none, none,
                   none, none⟩] }],
          temperature := 0.4, top_p := 0.7, max_tokens := 1500, stream := false } :=
  C10_new_session_defaults (fun _ => "ok")
    ⟨[("s0", ⟨0, [], true, 1⟩)],
     [⟨some "r1", none, none, some 0, none, none, none, none, none, none, none, none⟩], 3⟩
    "u1" "p1" "q1" (by decide) (by decide) (by decide)

theorem C9_general (A p rep : String)
    (h1 : A.length + p.length > FIRESTORE_LIMIT)
    (h2 : ¬ (A.length + rep.length > FIRESTORE_LIMIT)) :
    saveBothTurns ⟨[("s0", ⟨0, [⟨"user", A, 0⟩], false, 0⟩)], [], 1⟩ "s0" p rep =
      some ⟨[("s0", ⟨0, [⟨"user", A, 0⟩, ⟨"assistant", rep, 3⟩], false, 0⟩),
             (sessionIdOf 1, ⟨1, [⟨"user", p, 2⟩], false, 1⟩)], [], 4⟩ := by
  have hbig1 : ((([⟨"user", A, 0⟩] : List Message)).map (fun m => m.content.length)).sum
      + p.length > FIRESTORE_LIMIT := by simpa using h1
  have hsmall2 : ¬ (((([⟨"user", A, 0⟩] : List Message)).map
      (fun m => m.content.length)).sum + rep.length > FIRESTORE_LIMIT) := by simpa using h2
  unfold saveBothTurns
  rw [save_rollover_eq ⟨[("s0", ⟨0, [⟨"user", A, 0⟩], false, 0⟩)], [], 1⟩ "s0" "user" p
    ⟨0, [⟨"user", A, 0⟩], false, 0⟩ rfl hbig1]
  dsimp only
  have hget3 : getSession
      (setSession [("s0", ⟨0, [⟨"user", A, 0⟩], false, 0⟩)] (sessionIdOf 1)
        ⟨1, [⟨"user", p, 1 + 1⟩], false, 1⟩) "s0" =
      some ⟨0, [⟨"user", A, 0⟩], false, 0⟩ := by
    rw [getSession_setSession_ne _ _ _ _ (by decide : ("s0" : String) ≠ sessionIdOf 1)]
    simp [getSession]
  rw [save_keep_eq _ "s0" "assistant" rep ⟨0, [⟨"user", A, 0⟩], false, 0⟩ hget3 hsmall2]
  simp [setSession, arrayUnion, show ¬ (("s0" : String) = sessionIdOf 1) from by decide]

/-- C9 counterexample: a session holding 1,048,576 characters of content.
Saving the user prompt "p" (one more character) triggers a rollover, so the
prompt lands in the new session `sessionIdOf 1`; but saving the empty
assistant reply re-reads the original session, whose size plus the reply
(1,048,576) does not exceed the limit, so no second rollover happens and the
reply is appended to the *original* session "s0" — not to a second new
session.  This refutes the claim that the reply save always triggers a second
rollover placing the two turns in two distinct newly created sessions. -/
theorem C9_counterexample :
    (String.mk (List.replicate FIRESTORE_LIMIT 'a')).length + ("p" : String).length
      > FIRESTORE_LIMIT ∧
    saveBothTurns
      ⟨[("s0", ⟨0, [⟨"user", String.mk (List.replicate FIRESTORE_LIMIT 'a'), 0⟩],
          false, 0⟩)], [], 1⟩ "s0" "p" "" =
      some ⟨[("s0", ⟨0, [⟨"user", String.mk (List.replicate FIRESTORE_LIMIT 'a'), 0⟩,
                         ⟨"assistant", "", 3⟩], false, 0⟩),
             (sessionIdOf 1, ⟨1, [⟨"user", "p", 2⟩], false, 1⟩)], [], 4⟩ :=
  ⟨by rw [mk_replicate_length]; decide,
   C9_general (String.mk (List.replicate FIRESTORE_LIMIT 'a')) "p" ""
     (by rw [mk_replicate_length]; decide)
     (by rw [mk_replicate_length]; decide)⟩

/-- C9 amended: when saving the user prompt triggers a rollover, the prompt is
stored alone in the newly created session while saving the assistant reply
re-reads the original oversized session; a second rollover happens only when
the original session's cumulative content size plus the reply's size again
exceeds the limit, in which case the reply is stored alone in a second,
distinct new session and the original session is untouched; otherwise the
reply is appended to the original session.  In both cases the user prompt and
the assistant reply of the request end up in two different sessions. -/
theorem C9_amended_two_saves (s : Store) (sid prompt response : String) (data : Session)
    (hget : getSession s.sessions sid = some data)
    (hbig : (data.messages.map (fun m => m.content.length)).sum + prompt.length
      > FIRESTORE_LIMIT)
    (hf0 : sid ≠ sessionIdOf s.now)
    (hf2 : sid ≠ sessionIdOf (s.now + 2))
    (hids : sessionIdOf s.now ≠ sessionIdOf (s.now + 2))
    (hts : ∀ m ∈ data.messages, m.timestamp < s.now) :
    ∃ s', saveBothTurns s sid prompt response = some s' ∧
      getSession s'.sessions (sessionIdOf s.now) =
        some ⟨s.now, [⟨"user", prompt, s.now + 1⟩], false, s.now⟩ ∧
      (if (data.messages.map (fun m => m.content.length)).sum + response.length
          > FIRESTORE_LIMIT then
        getSession s'.sessions (sessionIdOf (s.now + 2)) =
          some ⟨s.now + 2, [⟨"assistant", response, s.now + 3⟩], false, s.now + 2⟩ ∧
        getSession s'.sessions sid = some data
      else
        getSession s'.sessions sid =
          some ⟨data.sessionStart,
                data.messages ++ [⟨"assistant", response, s.now + 2⟩],
                data.reports_included, data.last_fetch_time⟩) := by
  unfold saveBothTurns
  rw [save_rollover_eq s sid "user" prompt data hget hbig]
  dsimp only
  have hget3 : getSession
      (setSession s.sessions (sessionIdOf s.now)
        ⟨s.now, [⟨"user", prompt, s.now + 1⟩], false, s.now⟩) sid = some data := by
    rw [getSession_setSession_ne _ _ _ _ hf0]
    exact hget
  split_ifs with hbig2
  · rw [save_rollover_eq _ sid "assistant" response data hget3 hbig2]
    refine ⟨_, rfl, ?_, ?_, ?_⟩
    · rw [getSession_setSession_ne _ _ _ _ hids]
      exact getSession_setSession_self _ _ _
    · exact getSession_setSession_self _ _ _
    · rw [getSession_setSession_ne _ _ _ _ hf2]
      exact hget3
  · rw [save_keep_eq _ sid "assistant" response data hget3 hbig2]
    have hmem : (⟨"assistant", response, s.now + 2⟩ : Message) ∉ data.messages := by
      intro hm
      have hlt := hts _ hm
      simp at hlt
    refine ⟨_, rfl, ?_, ?_⟩
    · rw [getSession_setSession_ne _ _ _ _ (Ne.symm hf0)]
      exact getSession_setSession_self _ _ _
    · rw [getSession_setSession_self, arrayUnion_eq_append _ _ hmem]

theorem big_prompt_oversized :
    (((⟨0, [], false, 0⟩ : Session).messages.map (fun m => m.content.length)).sum
      + (String.mk (List.replicate (FIRESTORE_LIMIT + 1) 'a')).length > FIRESTORE_LIMIT) := by
  rw [mk_replicate_length]
  omega

/-- Witness for the amended C9: empty session, oversized prompt (1,048,577
characters), empty reply — the prompt rolls over into a new session and the
reply is appended to the original session. -/
theorem C9_amended_witness :
    ∃ s', saveBothTurns ⟨[("s0", ⟨0, [], false, 0⟩)], [], 1⟩ "s0"
        (String.mk (List.replicate (FIRESTORE_LIMIT + 1) 'a')) "" = some s' ∧
      getSession s'.sessions (sessionIdOf 1) =
        some ⟨1, [⟨"user", String.mk (List.replicate (FIRESTORE_LIMIT + 1) 'a'), 2⟩],
              false, 1⟩ ∧
      (if (([] : List Message).map (fun m => m.content.length)).sum
          + ("" : String).length > FIRESTORE_LIMIT then
        getSession s'.sessions (sessionIdOf 3) =
          some ⟨3, [⟨"assistant", "", 4⟩], false, 3⟩ ∧
        getSession s'.sessions "s0" = some ⟨0, [], false, 0⟩
      else
        getSession s'.sessions "s0" =
          some ⟨0, [] ++ [⟨"assistant", "", 3⟩], false, 0⟩) :=
  C9_amended_two_saves ⟨[("s0", ⟨0, [], false, 0⟩)], [], 1⟩ "s0"
    (String.mk (List.replicate (FIRESTORE_LIMIT + 1) 'a')) "" ⟨0, [], false, 0⟩
    rfl
    big_prompt_oversized
    (by decide) (by decide) (by decide) (by decide)
